import Mathlib

/-!
Verification of the automated ingestion pipeline in `auto_processor.py`
(call-recorder folder watcher).

The Python source is shallowly embedded: strings are Lean `String`s,
Python sets are lists handled through `setAdd` / `setRemove` (which
preserve set-membership semantics), and the external effects of the
handler (filesystem event kind, transcription outcome, translation
outcome, database success/failure) are passed in explicitly as an
environment record.  Each handler returns, besides the new state, the
trace of store/audio operations it performed, in order.
-/

/-- ASCII lowercase of one character, the fragment of Python `str.lower`
exercised by the pipeline (all keyword lexicons are ASCII). -/
def lowerChar (c : Char) : Char :=
  if 'A' ≤ c && c ≤ 'Z' then Char.ofNat (c.toNat + 32) else c

/-- Model of Python `str.lower()` (ASCII fragment). -/
def pyLower (s : String) : String := String.mk (s.toList.map lowerChar)

/-- `leadsWith pat l` is true when `pat` is an initial segment of `l`. -/
def leadsWith : List Char → List Char → Bool
  | [], _ => true
  | _ :: _, [] => false
  | a :: as, b :: bs => a == b && leadsWith as bs

/-- `containsSub pat l` is true when `pat` occurs contiguously in `l`. -/
def containsSub (pat : List Char) : List Char → Bool
  | [] => leadsWith pat []
  | c :: rest => leadsWith pat (c :: rest) || containsSub pat rest

/-- Model of the Python substring test `pat in s`. -/
def strContains (s pat : String) : Bool := containsSub pat.toList s.toList

example : strContains "hello world" "lo wo" = true := by decide

/-- Path separators recognised by the path handling of the watcher
(`os.path` on Windows accepts both slash styles). -/
def isSep (c : Char) : Bool := c == '/' || c == '\\'

/-- Model of `os.path.basename`: the part of the path after the last
separator. -/
def basename (p : String) : String :=
  ((p.toList.reverse.takeWhile (fun c => !(isSep c))).reverse).asString

/-- Index of the last dot in a character list, if any. -/
def lastDotIdx (b : List Char) : Option Nat :=
  ((b.enum.filter (fun x => x.2 == '.')).getLast?).map (fun x => x.1)

/-- Model of `os.path.splitext` applied to a bare file name: split at the
last dot, except when every character before that dot is itself a dot
(so dotfiles such as `.bashrc` have no extension), exactly as CPython
does. -/
def splitExtChars (b : List Char) : List Char × List Char :=
  match lastDotIdx b with
  | none => (b, [])
  | some i =>
    if (b.take i).any (fun c => c != '.') then (b.take i, b.drop i) else (b, [])

/-- `os.path.splitext(p)[1]`: the extension of the base name of the path. -/
def fileExt (p : String) : String := ((splitExtChars (basename p).toList).2).asString

/-- `os.path.splitext(name)[0]` for a base name: the stem, i.e. the
base file name with its extension stripped.  This is the key used by the
`processed_files` set of the handler. -/
def fileStem (name : String) : String :=
  ((splitExtChars (basename name).toList).1).asString

example : basename "C:/CallRecordings/call1.mp3" = "call1.mp3" := by decide
example : fileExt "C:/CallRecordings/call1.mp3" = ".mp3" := by decide
example : fileStem "call1.mp3" = "call1" := by decide
example : fileExt "C:/CallRecordings/noext" = "" := by decide

/-- The fixed allow-list of audio extensions checked by both handlers
(mp3, wav, m4a, ogg, webm). -/
def allowedExts : List String := [".mp3", ".wav", ".m4a", ".ogg", ".webm"]

/-! ## Analysis engine (`analyze_transcription_free`) -/

/-- The intent keyword lists of `analyze_transcription_free`, in the
order the source checks them. -/
def salesWords : List String := ["buy", "purchase", "order", "price", "cost"]

def supportWords : List String := ["problem", "issue", "not working", "broken", "fix", "help"]

def complaintWords : List String := ["cancel", "refund", "return", "complaint"]

def infoWords : List String := ["information", "details", "tell me", "what is", "how to"]

def schedulingWords : List String := ["appointment", "schedule", "book", "meeting"]

/-- `any(word in text_lower for word in ws)`. -/
def anyKeyword (tl : String) (ws : List String) : Bool :=
  ws.any (fun w => strContains tl w)

/-- The intent classification of `analyze_transcription_free`: an
if/elif chain over the lowered text, first match wins, defaulting to
"General Inquiry". -/
def intentOf (tl : String) : String :=
  if anyKeyword tl salesWords then "Sales/Purchase Inquiry"
  else if anyKeyword tl supportWords then "Technical Support"
  else if anyKeyword tl complaintWords then "Complaint/Refund Request"
  else if anyKeyword tl infoWords then "Information Request"
  else if anyKeyword tl schedulingWords then "Appointment/Scheduling"
  else "General Inquiry"

/-- The fixed positive lexicon of the sentiment rule. -/
def positiveWords : List String :=
  ["thank", "great", "good", "excellent", "happy", "satisfied", "love", "appreciate"]

/-- The fixed negative lexicon of the sentiment rule. -/
def negativeWords : List String :=
  ["bad", "terrible", "awful", "hate", "angry", "frustrated", "disappointed", "poor"]

/-- `sum(1 for word in positive_words if word in text_lower)`: the number
of positive lexicon entries occurring as substrings of the lowered text. -/
def positiveCount (tl : String) : Nat :=
  positiveWords.countP (fun w => strContains tl w)

/-- `sum(1 for word in negative_words if word in text_lower)`. -/
def negativeCount (tl : String) : Nat :=
  negativeWords.countP (fun w => strContains tl w)

/-- The sentiment rule of `analyze_transcription_free`. -/
def sentimentOf (tl : String) : String :=
  if positiveCount tl > negativeCount tl then "Positive 😊"
  else if negativeCount tl > positiveCount tl then "Negative 😞"
  else "Neutral 😐"

/-- Condition of the callback action-item rule. -/
def wantsCallback (tl : String) : Bool :=
  strContains tl "call back" || strContains tl "callback"

/-- Condition of the send-email action-item rule. -/
def wantsEmail (tl : String) : Bool :=
  strContains tl "email" && (strContains tl "send" || strContains tl "forward")

/-- Condition of the refund/return action-item rule. -/
def wantsRefund (tl : String) : Bool :=
  strContains tl "refund" || strContains tl "return"

/-- Condition of the appointment action-item rule. -/
def wantsAppointment (tl : String) : Bool :=
  strContains tl "appointment" || strContains tl "schedule"

/-- The action-item list before the default rule: the source appends one
entry per matching independent check, in this fixed order. -/
def actionItemsRaw (tl : String) : List String :=
  (if wantsCallback tl then ["Schedule callback"] else []) ++
  (if wantsEmail tl then ["Send email with information"] else []) ++
  (if wantsRefund tl then ["Process refund/return request"] else []) ++
  (if wantsAppointment tl then ["Schedule appointment"] else [])

/-- The final action-item list: `if not action_items: append default`. -/
def actionItemsOf (tl : String) : List String :=
  if (actionItemsRaw tl).isEmpty then ["Follow up with customer"] else actionItemsRaw tl

/-- The summary rule: texts longer than 150 characters are excerpted as
`text[:100] + "..." + text[-50:]`, shorter texts pass through. -/
def summaryOf (text_en : String) : String :=
  if text_en.length > 150 then
    (text_en.toList.take 100).asString ++ "..." ++
      (text_en.toList.drop (text_en.length - 50)).asString
  else text_en

/-- Model of `analyze_transcription_free(text)`.  The translation call is
an external effect: `translated = some t` means `GoogleTranslator`
returned `t`, `none` means it raised and the source falls back to the
untranslated text.  The returned string reproduces the f-string of the
source verbatim, including the stray `128:` … `134:` prefixes that
are literally present in the file. -/
def analyze_transcription_free (translated : Option String) (text : String) : String :=
  let text_en := match translated with | some t => t | none => text
  let tl := pyLower text_en
  "**Intent:** " ++ intentOf tl ++
  "\n128: **Sentiment:** " ++ sentimentOf tl ++
  "\n129: **Action Items:**\n130: " ++
  String.intercalate "\n" ((actionItemsOf tl).map (fun i => "- " ++ i)) ++
  "\n131: **Summary:** " ++ summaryOf text_en ++
  "\n132: \n133: *Processed automatically by folder watcher*\n134: "

/-! ## Transcription (`transcribe_audio_free`) -/

/-- Outcome of the transcode-and-transcribe block of
`transcribe_audio_free`, supplied as an environment value.
`success t` is a normal recognition result; `unknownValue` is
`sr.UnknownValueError` (audio present but not understood);
`requestError m` is `sr.RequestError` (the recognition provider is
unavailable or errored); `otherError m` is any other exception raised
inside the try block — in particular a pydub decode/export failure
while transcoding the source audio to WAV. -/
inductive TranscriptionOutcome where
  | success (t : String)
  | unknownValue
  | requestError (m : String)
  | otherError (m : String)
deriving DecidableEq, Repr

/-- Model of `transcribe_audio_free`: the string the function returns
for each outcome.  Every exception is caught inside the function, so it
always returns a string and never propagates a failure. -/
def transcribe_audio_free : TranscriptionOutcome → String
  | TranscriptionOutcome.success t => t
  | TranscriptionOutcome.unknownValue => "Could not understand the audio"
  | TranscriptionOutcome.requestError m => "Error: " ++ m
  | TranscriptionOutcome.otherError m => "Error: " ++ m

/-! ## Records and the store (`save_to_database`, Supabase table) -/

/-- A row of the `call_records` table, as built by `save_to_database`.
The timestamp is opaque to the pipeline and modelled as a `Nat`. -/
structure CallRecord where
  timestamp : Nat
  filename : String
  transcribedText : String
  analysis : String
deriving DecidableEq, Repr

/-- Model of `save_to_database`: on success the insert appends the row
and the function returns `true`; any store exception is caught and the
function returns `false` with nothing written. -/
def save_to_database (insertOk : Bool) (store : List CallRecord) (r : CallRecord) :
    Bool × List CallRecord :=
  if insertOk then (true, store ++ [r]) else (false, store)

/-! ## Handler state (`AudioFileHandler`) -/

/-- Python `set.add` on the list representation: no-op when the element
is already present. -/
def setAdd (l : List String) (x : String) : List String :=
  if l.contains x then l else x :: l

/-- Python set removal on the list representation: drops the element
(the source guards removal with a membership test, so removal of an
absent element never happens on the `processed_files` path, and the
`processing` path always removes an element it inserted). -/
def setRemove (l : List String) (x : String) : List String :=
  l.filter (fun y => !(y == x))

/-- The mutable state of `AudioFileHandler` together with the record
store it talks to: `processing` is the set of full paths currently in
flight, `processed_files` the set of already-processed base-name stems,
and `store` the `call_records` table. -/
structure HandlerState where
  processing : List String
  processed_files : List String
  store : List CallRecord
deriving DecidableEq, Repr

/-- The admission step of `on_created` (lines 174–186): skip when the
stem is in `processed_files` or the full path is in `processing`,
otherwise insert the path into `processing` and proceed. -/
def admitCreate (st : HandlerState) (filepath : String) : Bool × HandlerState :=
  let base_name := fileStem (basename filepath)
  if st.processed_files.contains base_name then (false, st)
  else if st.processing.contains filepath then (false, st)
  else (true, { st with processing := setAdd st.processing filepath })

/-- One store/audio operation performed by a handler, recorded in the
order the source performs them.  `insertRecord` is the attempted insert
(the row reaches the table only when the insert succeeds). -/
inductive PipelineOp where
  | findRecord (filename : String)
  | transcribe (path : String)
  | insertRecord (r : CallRecord)
  | deleteRecord (filename : String)
deriving DecidableEq, Repr

/-- `true` exactly on `insertRecord` operations. -/
def isInsertOp : PipelineOp → Bool
  | PipelineOp.insertRecord _ => true
  | _ => false

/-- External effects of one `on_created` invocation. -/
structure CreateEnv where
  isDirectory : Bool
  transcription : TranscriptionOutcome
  translation : Option String
  insertOk : Bool
  timestamp : Nat
deriving Repr

/-- The `CallRecord` row that `on_created` builds for `filepath` when it
reaches the transcription stage (lines 206–215 with `save_to_database`
lines 142–147). -/
def builtRecord (env : CreateEnv) (filepath : String) : CallRecord :=
  { timestamp := env.timestamp
    filename := basename filepath
    transcribedText := transcribe_audio_free env.transcription
    analysis := analyze_transcription_free env.translation
      (transcribe_audio_free env.transcription) }

/-- Model of `AudioFileHandler.on_created`.  Returns the new state and
the ordered trace of store/audio operations performed.  The settle
delay (`time.sleep(2)`) has no sequential effect and is elided; the
`finally` clause (`processing.remove`) is applied on every path that
passed admission. -/
def on_created (env : CreateEnv) (st : HandlerState) (filepath : String) :
    HandlerState × List PipelineOp :=
  if env.isDirectory then (st, [])
  else if !(allowedExts.contains (pyLower (fileExt filepath))) then (st, [])
  else
    match admitCreate st filepath with
    | (false, _) => (st, [])
    | (true, st1) =>
      let filename := basename filepath
      let base_name := fileStem (basename filepath)
      if st1.store.any (fun r => r.filename == filename) then
        -- already in database: mark processed, return (finally clears processing)
        ({ st1 with
            processed_files := setAdd st1.processed_files base_name
            processing := setRemove st1.processing filepath },
          [PipelineOp.findRecord filename])
      else
        let record := builtRecord env filepath
        match save_to_database env.insertOk st1.store record with
        | (true, store2) =>
          ({ st1 with
              store := store2
              processed_files := setAdd st1.processed_files base_name
              processing := setRemove st1.processing filepath },
            [PipelineOp.findRecord filename, PipelineOp.transcribe filepath,
             PipelineOp.insertRecord record])
        | (false, store2) =>
          ({ st1 with
              store := store2
              processing := setRemove st1.processing filepath },
            [PipelineOp.findRecord filename, PipelineOp.transcribe filepath,
             PipelineOp.insertRecord record])

/-- External effects of one `on_deleted` invocation: `deleteOk = true`
means the store delete call returned (deleting every row with the
matching filename — zero rows is a normal return, not an error);
`deleteOk = false` means the store call raised, in which case the
`except` block of the source skips the tracker update as well. -/
structure DeleteEnv where
  isDirectory : Bool
  deleteOk : Bool
deriving Repr

/-- Model of `AudioFileHandler.on_deleted`. -/
def on_deleted (env : DeleteEnv) (st : HandlerState) (filepath : String) :
    HandlerState × List PipelineOp :=
  if env.isDirectory then (st, [])
  else if !(allowedExts.contains (pyLower (fileExt filepath))) then (st, [])
  else
    let filename := basename filepath
    let base_name := fileStem filename
    if env.deleteOk then
      ({ st with
          store := st.store.filter (fun r => !(r.filename == filename))
          processed_files := setRemove st.processed_files base_name },
        [PipelineOp.deleteRecord filename])
    else
      (st, [PipelineOp.deleteRecord filename])

/-! ## Concrete fixtures used by the witness theorems -/

/-- Fresh handler state: nothing in flight, nothing processed, empty
store. -/
def stEmpty : HandlerState := { processing := [], processed_files := [], store := [] }

/-- Environment of a fully successful create attempt. -/
def envSucc : CreateEnv :=
  { isDirectory := false
    transcription := TranscriptionOutcome.success "I would like to schedule an appointment"
    translation := none
    insertOk := true
    timestamp := 1 }

/-- Environment in which the recognizer raised
`sr.UnknownValueError` (audio present but not understood). -/
def envUnk : CreateEnv :=
  { isDirectory := false
    transcription := TranscriptionOutcome.unknownValue
    translation := none
    insertOk := true
    timestamp := 2 }

/-- Environment in which the transcode step (pydub decode) raised,
caught by the generic except clause of `transcribe_audio_free`. -/
def envTrans : CreateEnv :=
  { isDirectory := false
    transcription := TranscriptionOutcome.otherError "Decoding failed"
    translation := none
    insertOk := true
    timestamp := 3 }

/-- Environment in which the store insert raised (`StoreError`). -/
def envNoStore : CreateEnv :=
  { isDirectory := false
    transcription := TranscriptionOutcome.success "hello there"
    translation := none
    insertOk := false
    timestamp := 4 }

/-- Delete-event environment: file event, store delete returns. -/
def envDel : DeleteEnv := { isDirectory := false, deleteOk := true }

/-- A state that already holds a store record for `call1.mp3`. -/
def stOne : HandlerState :=
  { processing := []
    processed_files := []
    store := [{ timestamp := 0, filename := "call1.mp3", transcribedText := "hello", analysis := "a" }] }

/-- A state after `call1.mp3` completed: stem tracked as processed and
its record in the store. -/
def stDone : HandlerState :=
  { processing := []
    processed_files := ["call1"]
    store := [{ timestamp := 0, filename := "call1.mp3", transcribedText := "hello", analysis := "a" }] }

/-- The state reached by fully processing `call1.mp3` from scratch. -/
def stAfter : HandlerState := (on_created envSucc stEmpty "C:/CallRecordings/call1.mp3").1

/-! ## Set-helper lemmas -/

theorem setAdd_mem (l : List String) (x : String) : x ∈ setAdd l x := by
  unfold setAdd
  by_cases h : x ∈ l
  · simp [h]
  · simp [h]

theorem setRemove_of_not_mem (l : List String) (x : String) (h : x ∉ l) :
    setRemove l x = l := by
  unfold setRemove
  rw [List.filter_eq_self]
  intro a ha
  simp only [Bool.not_eq_true', beq_eq_false_iff_ne]
  exact fun hax => h (hax ▸ ha)

theorem setRemove_not_mem (l : List String) (x : String) : x ∉ setRemove l x := by
  unfold setRemove
  simp

theorem setRemove_setAdd (l : List String) (x : String) (h : x ∉ l) :
    setRemove (setAdd l x) x = l := by
  have h1 : setAdd l x = x :: l := by unfold setAdd; simp [h]
  have h2 : setRemove (x :: l) x = setRemove l x := by unfold setRemove; simp
  rw [h1, h2]
  exact setRemove_of_not_mem l x h

theorem any_filter_self_false (l : List CallRecord) (f : String) :
    (l.filter (fun r => !(r.filename == f))).any (fun r => r.filename == f) = false := by
  rw [List.any_eq_false]
  intro r hr
  have h2 := (List.mem_filter.mp hr).2
  simp only [Bool.not_eq_true', beq_eq_false_iff_ne] at h2
  simpa using h2

/-! ## Claim theorems -/

/-- Claim C1: for a filename that already has a store record, a newly
admitted create event queries the store by filename and performs no
other store or audio operation (the trace is exactly the one query, so
the query precedes any audio processing and no insert happens), marks
the base-name stem completed, and leaves the store — in particular the
existing record — unchanged. -/
theorem created_existing_record_is_noop (env : CreateEnv) (st : HandlerState) (p : String)
    (hdir : env.isDirectory = false)
    (hext : allowedExts.contains (pyLower (fileExt p)) = true)
    (hbase : fileStem (basename p) ∉ st.processed_files)
    (hproc : p ∉ st.processing)
    (hstore : st.store.any (fun r => r.filename == basename p) = true) :
    (on_created env st p).2 = [PipelineOp.findRecord (basename p)] ∧
    (on_created env st p).1.store = st.store ∧
    fileStem (basename p) ∈ (on_created env st p).1.processed_files ∧
    (on_created env st p).1.processing = st.processing := by
  have hadm : admitCreate st p = (true, { st with processing := setAdd st.processing p }) := by
    unfold admitCreate
    simp [hbase, hproc]
  have hext2 : pyLower (fileExt p) ∈ allowedExts := by simpa using hext
  unfold on_created
  rw [hadm]
  simp [hdir, hext2, hstore, setAdd_mem, setRemove_setAdd _ _ hproc]

set_option maxRecDepth 8192 in
/-- Witness for C1 at a concrete state holding a record for
`call1.mp3`. -/
theorem created_existing_record_is_noop_witness :
    (on_created envSucc stOne "C:/CallRecordings/call1.mp3").2 =
      [PipelineOp.findRecord (basename "C:/CallRecordings/call1.mp3")] ∧
    (on_created envSucc stOne "C:/CallRecordings/call1.mp3").1.store = stOne.store ∧
    fileStem (basename "C:/CallRecordings/call1.mp3") ∈
      (on_created envSucc stOne "C:/CallRecordings/call1.mp3").1.processed_files ∧
    (on_created envSucc stOne "C:/CallRecordings/call1.mp3").1.processing = stOne.processing :=
  created_existing_record_is_noop envSucc stOne "C:/CallRecordings/call1.mp3"
    (by decide) (by decide) (by decide) (by decide) (by decide)

/-- Claim C2: with the stem not yet processed and the path not in
flight, the first `admitCreate` returns true (and inserts the path into
`processing`), and an immediately following second `admitCreate` for
the same path returns false. -/
theorem admitCreate_true_then_false (st : HandlerState) (p : String)
    (hbase : fileStem (basename p) ∉ st.processed_files)
    (hproc : p ∉ st.processing) :
    (admitCreate st p).1 = true ∧ (admitCreate (admitCreate st p).2 p).1 = false := by
  unfold admitCreate
  simp [hbase, hproc, setAdd_mem]

/-- Witness for C2 on the empty state. -/
theorem admitCreate_true_then_false_witness :
    (admitCreate stEmpty "C:/CallRecordings/call1.mp3").1 = true ∧
    (admitCreate (admitCreate stEmpty "C:/CallRecordings/call1.mp3").2
      "C:/CallRecordings/call1.mp3").1 = false :=
  admitCreate_true_then_false stEmpty "C:/CallRecordings/call1.mp3" (by decide) (by decide)

/-- Claim C3: a delete event for an audio file removes every store
record keyed by the base filename (no record needs to exist for the
call to return), clears the completed flag (stem leaves
`processed_files`), leaves nothing in flight for the path, and a
subsequent create event for the same path is admitted again.  The
hypothesis `hproc` reflects that `on_deleted` itself never touches the
`processing` set: between handler invocations the path is not in
flight because the `finally` clause of `on_created` always removes
it. -/
theorem deleted_clears_record_and_flags (env : DeleteEnv) (st : HandlerState) (p : String)
    (hdir : env.isDirectory = false)
    (hext : allowedExts.contains (pyLower (fileExt p)) = true)
    (hok : env.deleteOk = true)
    (hproc : p ∉ st.processing) :
    (on_deleted env st p).1.store.any (fun r => r.filename == basename p) = false ∧
    fileStem (basename p) ∉ (on_deleted env st p).1.processed_files ∧
    p ∉ (on_deleted env st p).1.processing ∧
    (admitCreate (on_deleted env st p).1 p).1 = true ∧
    (on_deleted env st p).2 = [PipelineOp.deleteRecord (basename p)] := by
  unfold on_deleted
  simp only [hdir, hext, hok]
  refine ⟨?_, ?_, ?_, ?_, ?_⟩
  · exact any_filter_self_false st.store (basename p)
  · exact setRemove_not_mem st.processed_files (fileStem (basename p))
  · simpa using hproc
  · unfold admitCreate
    simp [setRemove_not_mem, hproc]
  · simp

set_option maxRecDepth 8192 in
/-- Witness for C3: deleting `call1.mp3` in a state where it is
completed and stored clears the record and the flags and re-admits the
path. -/
theorem deleted_clears_record_and_flags_witness :
    (on_deleted envDel stDone "C:/CallRecordings/call1.mp3").1.store.any
      (fun r => r.filename == basename "C:/CallRecordings/call1.mp3") = false ∧
    fileStem (basename "C:/CallRecordings/call1.mp3") ∉
      (on_deleted envDel stDone "C:/CallRecordings/call1.mp3").1.processed_files ∧
    "C:/CallRecordings/call1.mp3" ∉
      (on_deleted envDel stDone "C:/CallRecordings/call1.mp3").1.processing ∧
    (admitCreate (on_deleted envDel stDone "C:/CallRecordings/call1.mp3").1
      "C:/CallRecordings/call1.mp3").1 = true ∧
    (on_deleted envDel stDone "C:/CallRecordings/call1.mp3").2 =
      [PipelineOp.deleteRecord (basename "C:/CallRecordings/call1.mp3")] :=
  deleted_clears_record_and_flags envDel stDone "C:/CallRecordings/call1.mp3"
    (by decide) (by decide) (by decide) (by decide)

/-- Claim C4: when transcription fails non-fatally — audio not
understood (`sr.UnknownValueError`) or the provider unavailable/erroring
(`sr.RequestError`) — the attempt stores the placeholder string as the
transcribed text and still proceeds through analysis to persistence:
exactly one record is appended to the store (no drop, no retry), the
record carries the placeholder as `transcribedText` and the analysis of
that placeholder, and the filename is marked completed. -/
theorem transcription_failure_still_persists (env : CreateEnv) (st : HandlerState) (p : String)
    (hdir : env.isDirectory = false)
    (hext : allowedExts.contains (pyLower (fileExt p)) = true)
    (hbase : fileStem (basename p) ∉ st.processed_files)
    (hproc : p ∉ st.processing)
    (hstore : st.store.any (fun r => r.filename == basename p) = false)
    (hins : env.insertOk = true)
    (htr : env.transcription = TranscriptionOutcome.unknownValue ∨
           ∃ m, env.transcription = TranscriptionOutcome.requestError m) :
    (on_created env st p).1.store = st.store ++ [builtRecord env p] ∧
    (on_created env st p).2 = [PipelineOp.findRecord (basename p), PipelineOp.transcribe p,
      PipelineOp.insertRecord (builtRecord env p)] ∧
    fileStem (basename p) ∈ (on_created env st p).1.processed_files ∧
    (builtRecord env p).transcribedText = transcribe_audio_free env.transcription ∧
    (env.transcription = TranscriptionOutcome.unknownValue →
      (builtRecord env p).transcribedText = "Could not understand the audio") ∧
    (∀ m, env.transcription = TranscriptionOutcome.requestError m →
      (builtRecord env p).transcribedText = "Error: " ++ m) ∧
    (builtRecord env p).analysis =
      analyze_transcription_free env.translation (builtRecord env p).transcribedText := by
  have hadm : admitCreate st p = (true, { st with processing := setAdd st.processing p }) := by
    unfold admitCreate
    simp [hbase, hproc]
  have hext2 : pyLower (fileExt p) ∈ allowedExts := by simpa using hext
  have hrun : on_created env st p =
      ({ processing := st.processing
         processed_files := setAdd st.processed_files (fileStem (basename p))
         store := st.store ++ [builtRecord env p] },
       [PipelineOp.findRecord (basename p), PipelineOp.transcribe p,
        PipelineOp.insertRecord (builtRecord env p)]) := by
    unfold on_created
    rw [hadm]
    simp [hdir, hext2, hstore, save_to_database, hins, setRemove_setAdd _ _ hproc]
  refine ⟨by rw [hrun], by rw [hrun], ?_, rfl, ?_, ?_, rfl⟩
  · rw [hrun]
    exact setAdd_mem _ _
  · intro h
    simp [builtRecord, h, transcribe_audio_free]
  · intro m h
    simp [builtRecord, h, transcribe_audio_free]

set_option maxRecDepth 8192 in
/-- Witness for C4: audio not understood, record persisted with the
fixed placeholder. -/
theorem transcription_failure_still_persists_witness :
    (on_created envUnk stEmpty "C:/CallRecordings/call1.mp3").1.store =
      stEmpty.store ++ [builtRecord envUnk "C:/CallRecordings/call1.mp3"] ∧
    (on_created envUnk stEmpty "C:/CallRecordings/call1.mp3").2 =
      [PipelineOp.findRecord (basename "C:/CallRecordings/call1.mp3"),
       PipelineOp.transcribe "C:/CallRecordings/call1.mp3",
       PipelineOp.insertRecord (builtRecord envUnk "C:/CallRecordings/call1.mp3")] ∧
    fileStem (basename "C:/CallRecordings/call1.mp3") ∈
      (on_created envUnk stEmpty "C:/CallRecordings/call1.mp3").1.processed_files ∧
    (builtRecord envUnk "C:/CallRecordings/call1.mp3").transcribedText =
      transcribe_audio_free envUnk.transcription ∧
    (envUnk.transcription = TranscriptionOutcome.unknownValue →
      (builtRecord envUnk "C:/CallRecordings/call1.mp3").transcribedText =
        "Could not understand the audio") ∧
    (∀ m, envUnk.transcription = TranscriptionOutcome.requestError m →
      (builtRecord envUnk "C:/CallRecordings/call1.mp3").transcribedText = "Error: " ++ m) ∧
    (builtRecord envUnk "C:/CallRecordings/call1.mp3").analysis =
      analyze_transcription_free envUnk.translation
        (builtRecord envUnk "C:/CallRecordings/call1.mp3").transcribedText :=
  transcription_failure_still_persists envUnk stEmpty "C:/CallRecordings/call1.mp3"
    (by decide) (by decide) (by decide) (by decide) (by decide) (by decide) (Or.inl rfl)

set_option maxRecDepth 8192 in
/-- Counterexample to claim C5 as stated: with a transcode failure
(pydub decode error, modelled as the generic exception outcome) and a
healthy store, the attempt is NOT failed — the failure reason is indeed
recorded as the `transcribedText` placeholder, but a record is
persisted and the filename is marked completed (`processed_files`
gains the stem), contradicting the claimed `markFailed` (completed not
set). -/
theorem transcode_failure_not_markFailed_counterexample :
    (builtRecord envTrans "C:/CallRecordings/call1.mp3").transcribedText =
      "Error: Decoding failed" ∧
    fileStem (basename "C:/CallRecordings/call1.mp3") ∈
      (on_created envTrans stEmpty "C:/CallRecordings/call1.mp3").1.processed_files ∧
    (on_created envTrans stEmpty "C:/CallRecordings/call1.mp3").1.store =
      [builtRecord envTrans "C:/CallRecordings/call1.mp3"] := by
  refine ⟨rfl, ?_, ?_⟩ <;> decide

/-- Claim C5 (amended): a transcoding failure is caught inside
`transcribe_audio_free` and converted to an error placeholder; the
attempt proceeds through analysis to persistence like any other
non-fatal transcription failure.  When the store insert succeeds the
filename is marked completed (not failed) and `inFlight` is cleared. -/
theorem transcode_failure_completes_with_placeholder (env : CreateEnv) (st : HandlerState)
    (p : String) (m : String)
    (hdir : env.isDirectory = false)
    (hext : allowedExts.contains (pyLower (fileExt p)) = true)
    (hbase : fileStem (basename p) ∉ st.processed_files)
    (hproc : p ∉ st.processing)
    (hstore : st.store.any (fun r => r.filename == basename p) = false)
    (hins : env.insertOk = true)
    (htr : env.transcription = TranscriptionOutcome.otherError m) :
    (on_created env st p).1.store = st.store ++ [builtRecord env p] ∧
    (builtRecord env p).transcribedText = "Error: " ++ m ∧
    fileStem (basename p) ∈ (on_created env st p).1.processed_files ∧
    p ∉ (on_created env st p).1.processing := by
  have hadm : admitCreate st p = (true, { st with processing := setAdd st.processing p }) := by
    unfold admitCreate
    simp [hbase, hproc]
  have hext2 : pyLower (fileExt p) ∈ allowedExts := by simpa using hext
  have hrun : on_created env st p =
      ({ processing := st.processing
         processed_files := setAdd st.processed_files (fileStem (basename p))
         store := st.store ++ [builtRecord env p] },
       [PipelineOp.findRecord (basename p), PipelineOp.transcribe p,
        PipelineOp.insertRecord (builtRecord env p)]) := by
    unfold on_created
    rw [hadm]
    simp [hdir, hext2, hstore, save_to_database, hins, setRemove_setAdd _ _ hproc]
  refine ⟨by rw [hrun], ?_, ?_, ?_⟩
  · simp [builtRecord, htr, transcribe_audio_free]
  · rw [hrun]
    exact setAdd_mem _ _
  · rw [hrun]
    exact hproc

set_option maxRecDepth 8192 in
/-- Witness for the amended C5 at the concrete transcode-failure
environment. -/
theorem transcode_failure_completes_with_placeholder_witness :
    (on_created envTrans stEmpty "C:/CallRecordings/call1.mp3").1.store =
      stEmpty.store ++ [builtRecord envTrans "C:/CallRecordings/call1.mp3"] ∧
    (builtRecord envTrans "C:/CallRecordings/call1.mp3").transcribedText =
      "Error: " ++ "Decoding failed" ∧
    fileStem (basename "C:/CallRecordings/call1.mp3") ∈
      (on_created envTrans stEmpty "C:/CallRecordings/call1.mp3").1.processed_files ∧
    "C:/CallRecordings/call1.mp3" ∉
      (on_created envTrans stEmpty "C:/CallRecordings/call1.mp3").1.processing :=
  transcode_failure_completes_with_placeholder envTrans stEmpty
    "C:/CallRecordings/call1.mp3" "Decoding failed"
    (by decide) (by decide) (by decide) (by decide) (by decide) (by decide) rfl

/-- Claim C6: when the store insert fails (`StoreError`), no record is
written (the store is unchanged), the stem is not marked completed
(`processed_files` unchanged), `inFlight` is cleared (the path leaves
`processing`), the trace contains exactly one insert attempt (no
internal retry), and a subsequent create event for the same path is
admitted again. -/
theorem store_failure_aborts_without_record (env : CreateEnv) (st : HandlerState) (p : String)
    (hdir : env.isDirectory = false)
    (hext : allowedExts.contains (pyLower (fileExt p)) = true)
    (hbase : fileStem (basename p) ∉ st.processed_files)
    (hproc : p ∉ st.processing)
    (hstore : st.store.any (fun r => r.filename == basename p) = false)
    (hins : env.insertOk = false) :
    (on_created env st p).1.store = st.store ∧
    (on_created env st p).1.processed_files = st.processed_files ∧
    fileStem (basename p) ∉ (on_created env st p).1.processed_files ∧
    p ∉ (on_created env st p).1.processing ∧
    ((on_created env st p).2.filter isInsertOp).length = 1 ∧
    (admitCreate (on_created env st p).1 p).1 = true := by
  have hadm : admitCreate st p = (true, { st with processing := setAdd st.processing p }) := by
    unfold admitCreate
    simp [hbase, hproc]
  have hext2 : pyLower (fileExt p) ∈ allowedExts := by simpa using hext
  have hrun : on_created env st p =
      ({ processing := st.processing
         processed_files := st.processed_files
         store := st.store },
       [PipelineOp.findRecord (basename p), PipelineOp.transcribe p,
        PipelineOp.insertRecord (builtRecord env p)]) := by
    unfold on_created
    rw [hadm]
    simp [hdir, hext2, hstore, save_to_database, hins, setRemove_setAdd _ _ hproc]
  refine ⟨by rw [hrun], by rw [hrun], ?_, ?_, ?_, ?_⟩
  · rw [hrun]
    exact hbase
  · rw [hrun]
    exact hproc
  · rw [hrun]
    simp [isInsertOp]
  · rw [hrun]
    unfold admitCreate
    simp [hbase, hproc]

set_option maxRecDepth 8192 in
/-- Witness for C6 at a concrete failing-store environment. -/
theorem store_failure_aborts_without_record_witness :
    (on_created envNoStore stEmpty "C:/CallRecordings/call1.mp3").1.store = stEmpty.store ∧
    (on_created envNoStore stEmpty "C:/CallRecordings/call1.mp3").1.processed_files =
      stEmpty.processed_files ∧
    fileStem (basename "C:/CallRecordings/call1.mp3") ∉
      (on_created envNoStore stEmpty "C:/CallRecordings/call1.mp3").1.processed_files ∧
    "C:/CallRecordings/call1.mp3" ∉
      (on_created envNoStore stEmpty "C:/CallRecordings/call1.mp3").1.processing ∧
    ((on_created envNoStore stEmpty "C:/CallRecordings/call1.mp3").2.filter isInsertOp).length = 1 ∧
    (admitCreate (on_created envNoStore stEmpty "C:/CallRecordings/call1.mp3").1
      "C:/CallRecordings/call1.mp3").1 = true :=
  store_failure_aborts_without_record envNoStore stEmpty "C:/CallRecordings/call1.mp3"
    (by decide) (by decide) (by decide) (by decide) (by decide) (by decide)

/-- Claim C7: intent is decided by case-insensitive substring matching
(the checks run over the lowered translated text) with first match
winning in the fixed priority order sales → support → complaint →
information → scheduling, defaulting to "General Inquiry" when no
keyword matches. -/
theorem intent_priority (t : String) :
    (anyKeyword (pyLower t) salesWords = true →
      intentOf (pyLower t) = "Sales/Purchase Inquiry") ∧
    (anyKeyword (pyLower t) salesWords = false →
      anyKeyword (pyLower t) supportWords = true →
      intentOf (pyLower t) = "Technical Support") ∧
    (anyKeyword (pyLower t) salesWords = false →
      anyKeyword (pyLower t) supportWords = false →
      anyKeyword (pyLower t) complaintWords = true →
      intentOf (pyLower t) = "Complaint/Refund Request") ∧
    (anyKeyword (pyLower t) salesWords = false →
      anyKeyword (pyLower t) supportWords = false →
      anyKeyword (pyLower t) complaintWords = false →
      anyKeyword (pyLower t) infoWords = true →
      intentOf (pyLower t) = "Information Request") ∧
    (anyKeyword (pyLower t) salesWords = false →
      anyKeyword (pyLower t) supportWords = false →
      anyKeyword (pyLower t) complaintWords = false →
      anyKeyword (pyLower t) infoWords = false →
      anyKeyword (pyLower t) schedulingWords = true →
      intentOf (pyLower t) = "Appointment/Scheduling") ∧
    (anyKeyword (pyLower t) salesWords = false →
      anyKeyword (pyLower t) supportWords = false →
      anyKeyword (pyLower t) complaintWords = false →
      anyKeyword (pyLower t) infoWords = false →
      anyKeyword (pyLower t) schedulingWords = false →
      intentOf (pyLower t) = "General Inquiry") := by
  refine ⟨?_, ?_, ?_, ?_, ?_, ?_⟩ <;> intros <;> simp [intentOf, *]

/-- Witness for C7 on a sales text from the spec examples. -/
theorem intent_priority_witness :
    intentOf (pyLower "I want to buy a new phone, price?") = "Sales/Purchase Inquiry" :=
  (intent_priority "I want to buy a new phone, price?").1 (by decide)

/-- Claim C8: sentiment counts how many entries of the fixed positive
and negative lexicons occur (case-insensitive substring) in the lowered
translated text; Positive when the positive count is larger, Negative
when the negative count is larger, Neutral on a tie — including the 0/0
tie of the empty text. -/
theorem sentiment_counts (t : String) :
    positiveCount (pyLower t) =
      positiveWords.countP (fun w => strContains (pyLower t) w) ∧
    negativeCount (pyLower t) =
      negativeWords.countP (fun w => strContains (pyLower t) w) ∧
    (positiveCount (pyLower t) > negativeCount (pyLower t) →
      sentimentOf (pyLower t) = "Positive 😊") ∧
    (negativeCount (pyLower t) > positiveCount (pyLower t) →
      sentimentOf (pyLower t) = "Negative 😞") ∧
    (positiveCount (pyLower t) = negativeCount (pyLower t) →
      sentimentOf (pyLower t) = "Neutral 😐") ∧
    sentimentOf (pyLower "") = "Neutral 😐" := by
  refine ⟨rfl, rfl, ?_, ?_, ?_, by decide⟩
  · intro h
    simp [sentimentOf, h]
  · intro h
    have h2 : ¬(positiveCount (pyLower t) > negativeCount (pyLower t)) := by omega
    simp [sentimentOf, h, h2]
  · intro h
    simp [sentimentOf, h]

/-- Witness for C8 on a positive text from the spec examples. -/
theorem sentiment_counts_witness :
    sentimentOf (pyLower "Thank you, great service!") = "Positive 😊" :=
  (sentiment_counts "Thank you, great service!").2.2.1 (by decide)

/-- Claim C9: the action-item list is built from independent,
non-mutually-exclusive case-insensitive substring checks in the fixed
order callback → send-email → refund/return → appointment; when no rule
matches the list is exactly the single default entry; the list is never
empty. -/
theorem action_items_rules (t : String) :
    actionItemsOf (pyLower t) ≠ [] ∧
    (wantsCallback (pyLower t) = false → wantsEmail (pyLower t) = false →
      wantsRefund (pyLower t) = false → wantsAppointment (pyLower t) = false →
      actionItemsOf (pyLower t) = ["Follow up with customer"]) ∧
    ((wantsCallback (pyLower t) || wantsEmail (pyLower t) || wantsRefund (pyLower t) ||
        wantsAppointment (pyLower t)) = true →
      actionItemsOf (pyLower t) =
        (if wantsCallback (pyLower t) then ["Schedule callback"] else []) ++
        (if wantsEmail (pyLower t) then ["Send email with information"] else []) ++
        (if wantsRefund (pyLower t) then ["Process refund/return request"] else []) ++
        (if wantsAppointment (pyLower t) then ["Schedule appointment"] else [])) := by
  cases hcb : wantsCallback (pyLower t) <;>
    cases hem : wantsEmail (pyLower t) <;>
    cases hrf : wantsRefund (pyLower t) <;>
    cases hap : wantsAppointment (pyLower t) <;>
    simp [actionItemsOf, actionItemsRaw, hcb, hem, hrf, hap]

/-- Witness for C9 on the empty text: no rule matches, so the single
default entry is produced. -/
theorem action_items_rules_witness :
    actionItemsOf (pyLower "") = ["Follow up with customer"] :=
  (action_items_rules "").2.1 (by decide) (by decide) (by decide) (by decide)

/-- Claim C10: the completed-dedup key is the extension-stripped stem
while the store key is the full base filename: once the stem is in
`processed_files`, a create event for a file with the same stem and a
different (allowed) extension is skipped before any store operation —
the handler returns with the state unchanged and an empty trace — so
no record for that new filename is ever created during the epoch, even
though the store holds no record under that filename. -/
theorem stem_dedup_blocks_other_extension (env : CreateEnv) (st : HandlerState) (p : String)
    (hdir : env.isDirectory = false)
    (hext : allowedExts.contains (pyLower (fileExt p)) = true)
    (hstem : fileStem (basename p) ∈ st.processed_files)
    (hnorec : st.store.any (fun r => r.filename == basename p) = false) :
    on_created env st p = (st, []) ∧
    (on_created env st p).1.store.any (fun r => r.filename == basename p) = false := by
  have hext2 : pyLower (fileExt p) ∈ allowedExts := by simpa using hext
  have h1 : on_created env st p = (st, []) := by
    unfold on_created admitCreate
    simp [hdir, hext2, hstem]
  exact ⟨h1, by rw [h1]; exact hnorec⟩

set_option maxRecDepth 8192 in
/-- Witness for C10: after fully processing `call1.mp3` from scratch,
a create event for `call1.wav` (same stem, different allowed extension,
no store record under `call1.wav`) is a complete no-op. -/
theorem stem_dedup_blocks_other_extension_witness :
    on_created envSucc stAfter "C:/CallRecordings/call1.wav" = (stAfter, []) ∧
    (on_created envSucc stAfter "C:/CallRecordings/call1.wav").1.store.any
      (fun r => r.filename == basename "C:/CallRecordings/call1.wav") = false :=
  stem_dedup_blocks_other_extension envSucc stAfter "C:/CallRecordings/call1.wav"
    (by decide) (by decide) (by decide) (by decide)
